import Mathlib

/-
Verification development for the logiops IPC layer.

The definitions below are a shallow embedding of the C++ sources under
src/src/logid/ipc/ : the IPCVariant::TypeInfo signature parser, the
IPCVariant tagged value type with its constructors, conversion operators
and equality, IPCInterface property/signal handling, and the IPCServer
registry and dispatch callbacks.  C++ strings are `List Char`, machine
integers are `Nat`/`Int` reduced modulo 2^w where the code converts,
and thrown exceptions become `Except` errors.
-/

namespace LogiopsIPC

/-- Exceptions thrown by the IPC layer: `IPCVariant::InvalidType`
(optionally carrying the offending signature text), `std::invalid_argument`
and `std::runtime_error`. -/
inductive IPCError where
  | invalidType (sig : List Char)
  | stdInvalidArg (msg : List Char)
  | stdRuntime (msg : List Char)
deriving DecidableEq, Repr

/-- IPCVariant::SINGLE_TYPES = "nqiuxtdysgob". -/
def SINGLE_TYPES : List Char := "nqiuxtdysgob".data

/-- IPCVariant::SPECIAL_TYPES = "a({". -/
def SPECIAL_TYPES : List Char := ['a', '(', '{']

/-- IPCVariant::ALL_TYPES = SINGLE_TYPES + SPECIAL_TYPES. -/
def ALL_TYPES : List Char := SINGLE_TYPES ++ SPECIAL_TYPES

/-- IPCVariant::VALID_CHARS = ALL_TYPES + ")}". -/
def VALID_CHARS : List Char := ALL_TYPES ++ [')', '}']

/-- IPCVariant::TypeInfo.  The C++ class stores the primary type tag
(`_type`, a char-valued enum: Int16='n', UInt16='q', Int32='i', UInt32='u',
Int64='x', UInt64='t', Double='d', Byte='y', String='s', Signature='g',
ObjectPath='o', Boolean='b', Array='a', Struct='(', Dict='{', None='0'),
the signature text `_type_signature`, the struct member types
`_struct_types`, and shared pointers `_array_type`, `_dict_key`,
`_dict_value` (modelled as `Option`, `none` for a null pointer). -/
inductive TypeInfo : Type where
  | mk (ty : Char) (sig : List Char) (structTypes : List TypeInfo)
       (arrayTy : Option TypeInfo) (dictKey : Option TypeInfo)
       (dictVal : Option TypeInfo) : TypeInfo

namespace TypeInfo

/-- Field accessor for `_type` (TypeInfo::primaryType). -/
def primaryType : TypeInfo → Char
  | .mk ty _ _ _ _ _ => ty

/-- Field accessor for `_type_signature` (TypeInfo::typeSignature). -/
def typeSignature : TypeInfo → List Char
  | .mk _ sig _ _ _ _ => sig

/-- Field accessor for `_struct_types`. -/
def structTypes : TypeInfo → List TypeInfo
  | .mk _ _ st _ _ _ => st

/-- Field accessor for `_array_type`. -/
def arrayTy : TypeInfo → Option TypeInfo
  | .mk _ _ _ a _ _ => a

/-- Field accessor for `_dict_key`. -/
def dictKey : TypeInfo → Option TypeInfo
  | .mk _ _ _ _ k _ => k

/-- Field accessor for `_dict_value`. -/
def dictVal : TypeInfo → Option TypeInfo
  | .mk _ _ _ _ _ v => v

/-- TypeInfo::TypeInfo(): `_type = None`, `_type_signature = "0"`. -/
def default0 : TypeInfo := .mk '0' ['0'] [] none none none

instance : Inhabited TypeInfo := ⟨default0⟩

end TypeInfo

/-- TypeInfo::operator== compares the stored signature texts
(`other.typeSignature() == _type_signature`), not the parsed structure. -/
def tiEq (a b : TypeInfo) : Bool := a.typeSignature == b.typeSignature

/-- TypeInfo::TypeInfo(char): accepts exactly the single-character
primitive codes, otherwise throws InvalidType. -/
def typeInfoOfChar (c : Char) : Except IPCError TypeInfo :=
  if SINGLE_TYPES.contains c then
    .ok (.mk c [c] [] none none none)
  else
    .error (.invalidType [c])

/-- TypeInfo::TypeInfo(Type t): rejects None, Array, Struct and Dict
(those need a full signature), accepts any other tag. -/
def typeInfoOfType (t : Char) : Except IPCError TypeInfo :=
  if t = '0' ∨ t = 'a' ∨ t = '(' ∨ t = '{' then
    .error (.invalidType [])
  else
    .ok (.mk t [t] [] none none none)

/-- One step of the bracket counter in TypeInfo::getSpecialEnd: an opening
character increments, a closing character decrements, others leave it. -/
def bracketStep (ch openC closeC : Char) (count : Nat) : Nat :=
  if ch = openC then count + 1 else if ch = closeC then count - 1 else count

/-- The closing-bracket scan loop inside TypeInfo::getSpecialEnd: starting
from index `endIdx` with `count` open brackets outstanding, advance until
the count reaches zero (return that index) or the string ends (throw). -/
def scanClose (s : List Char) (openC closeC : Char) (endIdx count : Nat) :
    Except IPCError Nat :=
  if _h : endIdx < s.length then
    if bracketStep (s.getD endIdx 'Z') openC closeC count = 0 then .ok endIdx
    else scanClose s openC closeC (endIdx + 1)
      (bracketStep (s.getD endIdx 'Z') openC closeC count)
  else .error (.invalidType s)
termination_by s.length - endIdx

/-- TypeInfo::getSpecialEnd(type_signature, start): for an array, the end
index is the end of the (possibly composite) element signature directly
after the 'a'; for a struct or dict, scan for the matching close bracket.
The C++ asserts `start < size-1` and `s[start] ∈ SPECIAL_TYPES`; both hold
at every call site in the parser. -/
def getSpecialEnd (s : List Char) (start : Nat) : Except IPCError Nat :=
  if _h : start < s.length then
    if s.getD start 'Z' = 'a' then
      if _h1 : start + 1 < s.length then
        if SINGLE_TYPES.contains (s.getD (start + 1) 'Z') then .ok (start + 1)
        else if SPECIAL_TYPES.contains (s.getD (start + 1) 'Z') then
          if start + 2 ≥ s.length then .error (.invalidType s)
          else getSpecialEnd s (start + 1)
        else .error (.invalidType s)
      else .error (.invalidType s)
    else
      scanClose s (s.getD start 'Z')
        (if s.getD start 'Z' = '{' then '}' else ')') (start + 1) 1
  else .error (.invalidType s)
termination_by s.length - start

theorem scanClose_le (s : List Char) (oc cc : Char) :
    ∀ fuel e c r, s.length - e ≤ fuel → scanClose s oc cc e c = .ok r →
      e ≤ r := by
  intro fuel
  induction fuel with
  | zero =>
    intro e c r hf h
    unfold scanClose at h
    split at h
    · next hlt => omega
    · cases h
  | succ n ih =>
    intro e c r hf h
    unfold scanClose at h
    split at h
    · next hlt =>
      split at h
      · cases h; exact Nat.le_refl _
      · exact Nat.le_trans (Nat.le_succ e) (ih (e + 1) _ r (by omega) h)
    · cases h

theorem scanClose_gt {s : List Char} {oc cc : Char} {e c r : Nat}
    (h : scanClose s oc cc e c = .ok r) : e ≤ r :=
  scanClose_le s oc cc (s.length - e) e c r (Nat.le_refl _) h

theorem getSpecialEnd_aux (s : List Char) :
    ∀ fuel st r, s.length - st ≤ fuel → getSpecialEnd s st = .ok r →
      st < r := by
  intro fuel
  induction fuel with
  | zero =>
    intro st r hf h
    unfold getSpecialEnd at h
    split at h
    · next hlt => omega
    · cases h
  | succ n ih =>
    intro st r hf h
    unfold getSpecialEnd at h
    split at h
    · next hlt =>
      split at h
      · split at h
        · next h1 =>
          split at h
          · cases h; omega
          · split at h
            · split at h
              · cases h
              · have := ih (st + 1) r (by omega) h
                omega
            · cases h
        · cases h
      · have := scanClose_gt h
        omega
    · cases h

theorem getSpecialEnd_gt {s : List Char} {st r : Nat}
    (h : getSpecialEnd s st = .ok r) : st < r :=
  getSpecialEnd_aux s (s.length - st) st r (Nat.le_refl _) h

/-- Model of std::string::substr(start, len). -/
def sub (ts : List Char) (start len : Nat) : List Char :=
  (ts.drop start).take len

mutual

/-- TypeInfo::TypeInfo(std::string type_signature): throws on the empty
string; throws if any character is outside VALID_CHARS; a leading primitive
code must be the whole string; otherwise the string must start with a
SPECIAL_TYPES character and have length > 1, and is parsed as an Array
(recursively parse everything after the 'a'), a Struct (must end in ')',
members parsed by the i = 1 .. size-2 loop), or a Dict (must end in '}',
one key sub-signature from index 1, then the value sub-signature). -/
def parseTypeInfo (ts : List Char) : Except IPCError TypeInfo :=
  if _he : ts.length = 0 then .error (.invalidType [])
  else if _hv : (ts.all fun c => VALID_CHARS.contains c) = false then
    .error (.invalidType ts)
  else if SINGLE_TYPES.contains (ts.getD 0 'Z') then
    if ts.length ≠ 1 then .error (.invalidType ts)
    else .ok (.mk (ts.getD 0 'Z') ts [] none none none)
  else if ¬ SPECIAL_TYPES.contains (ts.getD 0 'Z') then
    .error (.invalidType ts)
  else if _hl : ts.length = 1 then .error (.invalidType ts)
  else if ts.getD 0 'Z' = 'a' then
    match parseTypeInfo (ts.drop 1) with
    | .error e => .error e
    | .ok elemTi => .ok (.mk 'a' ts [] (some elemTi) none none)
  else if ts.getD 0 'Z' = '(' then
    if ts.getLast? ≠ some ')' then .error (.invalidType ts)
    else
      match parseStructFields ts 1 with
      | .error e => .error e
      | .ok fields => .ok (.mk '(' ts fields none none none)
  else
    if ts.getLast? ≠ some '}' then .error (.invalidType ts)
    else if SINGLE_TYPES.contains (ts.getD 1 'Z') then
      match parseTypeInfo (sub ts 1 1) with
      | .error e => .error e
      | .ok kTi =>
        match parseDictValue ts 2 (by omega) with
        | .error e => .error e
        | .ok vTi => .ok (.mk '{' ts [] none (some kTi) (some vTi))
    else if SPECIAL_TYPES.contains (ts.getD 1 'Z') then
      match getSpecialEnd ts 1 with
      | .error e => .error e
      | .ok keyEnd =>
        if keyEnd ≥ ts.length - 1 then .error (.invalidType ts)
        else
          match parseTypeInfo (sub ts 1 keyEnd) with
          | .error e => .error e
          | .ok kTi =>
            match parseDictValue ts (keyEnd + 1) (by omega) with
            | .error e => .error e
            | .ok vTi => .ok (.mk '{' ts [] none (some kTi) (some vTi))
    else .error (.invalidType ts)
termination_by 5 * ts.length
decreasing_by
  all_goals try simp only [sub, List.length_take, List.length_drop]
  all_goals omega

/-- The struct-member loop of TypeInfo::TypeInfo(std::string), iterating
`for i = 1; i < size-1; i++`: a primitive character becomes a member via
the char constructor; a SPECIAL_TYPES character extends to its
getSpecialEnd (which must land before the final ')'), the substring is
parsed recursively and i fast-forwards; any other character is a stray and
throws. -/
def parseStructFields (ts : List Char) (i : Nat) :
    Except IPCError (List TypeInfo) :=
  if _h : i < ts.length - 1 then
    if SINGLE_TYPES.contains (ts.getD i 'Z') then
      match typeInfoOfChar (ts.getD i 'Z') with
      | .error e => .error e
      | .ok t =>
        match parseStructFields ts (i + 1) with
        | .error e => .error e
        | .ok rest => .ok (t :: rest)
    else if SPECIAL_TYPES.contains (ts.getD i 'Z') then
      match _hk2 : getSpecialEnd ts i with
      | .error e => .error e
      | .ok endIdx =>
        if endIdx ≥ ts.length - 1 then .error (.invalidType ts)
        else
          match parseTypeInfo (sub ts i (endIdx - i + 1)) with
          | .error e => .error e
          | .ok t =>
            match parseStructFields ts (endIdx + 1) with
            | .error e => .error e
            | .ok rest => .ok (t :: rest)
    else .error (.invalidType ts)
  else .ok []
termination_by 5 * ts.length - 1 - i
decreasing_by
  all_goals try simp only [sub, List.length_take, List.length_drop]
  all_goals
    first
    | omega
    | (have hgt := getSpecialEnd_gt _hk2; omega)

/-- The dict-value part of TypeInfo::TypeInfo(std::string): value_start
must lie inside the string; a primitive value is the one-character
substring; a SPECIAL_TYPES value must extend exactly to index size-2;
anything else throws.  `hv` records that the parser always passes
value_start ≥ 1 (it is 2 or key_end+1). -/
def parseDictValue (ts : List Char) (vstart : Nat) (_hv : 0 < vstart) :
    Except IPCError TypeInfo :=
  if _hs : vstart ≥ ts.length then .error (.invalidType ts)
  else if SINGLE_TYPES.contains (ts.getD vstart 'Z') then
    parseTypeInfo (sub ts vstart 1)
  else if SPECIAL_TYPES.contains (ts.getD vstart 'Z') then
    match getSpecialEnd ts vstart with
    | .error e => .error e
    | .ok vend =>
      if vend ≠ ts.length - 2 then .error (.invalidType ts)
      else parseTypeInfo (sub ts vstart (vend - vstart + 1))
  else .error (.invalidType ts)
termination_by 5 * ts.length - vstart
decreasing_by
  all_goals try simp only [sub, List.length_take, List.length_drop]
  all_goals omega

end

/-- TypeInfo::arrayType(): throws InvalidType unless the primary type is
Array, then dereferences `_array_type`.  The pointer is always set for an
Array built by the parser; a null pointer (dereference would be undefined
behaviour, unreachable there) is modelled as the default TypeInfo. -/
def TypeInfo.arrayType (t : TypeInfo) : Except IPCError TypeInfo :=
  if t.primaryType ≠ 'a' then .error (.invalidType [])
  else .ok (t.arrayTy.getD TypeInfo.default0)

/-- TypeInfo::structFormat(): throws InvalidType unless the primary type
is Struct, then returns `_struct_types`. -/
def TypeInfo.structFormat (t : TypeInfo) : Except IPCError (List TypeInfo) :=
  if t.primaryType ≠ '(' then .error (.invalidType [])
  else .ok t.structTypes

/-- TypeInfo::dictType(): throws InvalidType unless the primary type is
Dict, then dereferences `_dict_key` and `_dict_value` (null modelled as
the default TypeInfo, as for arrayType). -/
def TypeInfo.dictType (t : TypeInfo) : Except IPCError (TypeInfo × TypeInfo) :=
  if t.primaryType ≠ '{' then .error (.invalidType [])
  else .ok (t.dictKey.getD TypeInfo.default0, t.dictVal.getD TypeInfo.default0)

/-- IPCVariant.  The C++ class stores `_array` (also used for structs),
`_dict` (std::map, modelled as an association list in insertion order),
`_num_data` (a uint64_t slot shared by all numeric kinds, booleans and
bytes), `_string_data` and `_type`.  Note: the C++ `IPCVariantDict` is a
std::map whose comparator is `std::equal_to<>`, which violates the strict
weak ordering std::map requires, so the library's lookup behaviour on a
non-empty map is undefined; no theorem below relies on a non-empty-map
lookup. -/
inductive IPCVariant : Type where
  | mk (arrayData : List IPCVariant)
       (dictData : List (IPCVariant × IPCVariant))
       (numData : Nat) (stringData : List Char) (type : TypeInfo) : IPCVariant

namespace IPCVariant

/-- Field accessor for `_array`. -/
def arrayData : IPCVariant → List IPCVariant
  | .mk a _ _ _ _ => a

/-- Field accessor for `_dict`. -/
def dictData : IPCVariant → List (IPCVariant × IPCVariant)
  | .mk _ d _ _ _ => d

/-- Field accessor for `_num_data`. -/
def numData : IPCVariant → Nat
  | .mk _ _ n _ _ => n

/-- Field accessor for `_string_data`. -/
def stringData : IPCVariant → List Char
  | .mk _ _ _ s _ => s

/-- IPCVariant::type(). -/
def type : IPCVariant → TypeInfo
  | .mk _ _ _ _ t => t

/-- IPCVariant::IPCVariant(): default TypeInfo (None); `_num_data` is left
uninitialized in C++ and is modelled as 0. -/
def default0 : IPCVariant := .mk [] [] 0 [] TypeInfo.default0

instance : Inhabited IPCVariant := ⟨default0⟩

end IPCVariant

/-- C++ conversion of a (possibly negative) integer value to uint64_t:
reduction modulo 2^64. -/
def u64ofInt (i : Int) : Nat := (i % (2 ^ 64 : Int)).toNat

/-- C++ cast (int16_t) applied to the uint64_t `_num_data` slot:
truncation to 16 bits, then two's-complement signed reading. -/
def i16ofU64 (n : Nat) : Int :=
  let m : Nat := n % 2 ^ 16
  if m < 2 ^ 15 then (m : Int) else (m : Int) - 2 ^ 16

/-- C++ cast (uint16_t) of `_num_data`. -/
def u16ofU64 (n : Nat) : Nat := n % 2 ^ 16

/-- C++ cast (int32_t) of `_num_data`. -/
def i32ofU64 (n : Nat) : Int :=
  let m : Nat := n % 2 ^ 32
  if m < 2 ^ 31 then (m : Int) else (m : Int) - 2 ^ 32

/-- C++ cast (uint32_t) of `_num_data`. -/
def u32ofU64 (n : Nat) : Nat := n % 2 ^ 32

/-- C++ cast (int64_t) of `_num_data`. -/
def i64ofU64 (n : Nat) : Int :=
  let m : Nat := n % 2 ^ 64
  if m < 2 ^ 63 then (m : Int) else (m : Int) - 2 ^ 64

/-- C++ cast (uint8_t) of `_num_data`. -/
def u8ofU64 (n : Nat) : Nat := n % 2 ^ 8

/-- IPCVariant(int16_t): NUM_DATA(int16_t, Int16) stores the value in the
uint64_t slot (sign wrapped modulo 2^64) and tags the variant Int16. -/
def ofInt16 (d : Int) : IPCVariant :=
  .mk [] [] (u64ofInt d) [] (.mk 'n' ['n'] [] none none none)

/-- IPCVariant(uint16_t): NUM_DATA(uint16_t, UInt16). -/
def ofUInt16 (d : Nat) : IPCVariant :=
  .mk [] [] d [] (.mk 'q' ['q'] [] none none none)

/-- IPCVariant(int32_t): the source reads NUM_DATA(int32_t, Int16), so a
variant constructed from an int32_t value is tagged Int16 ('n'), not
Int32 ('i'). -/
def ofInt32 (d : Int) : IPCVariant :=
  .mk [] [] (u64ofInt d) [] (.mk 'n' ['n'] [] none none none)

/-- IPCVariant(uint32_t): NUM_DATA(uint32_t, UInt32). -/
def ofUInt32 (d : Nat) : IPCVariant :=
  .mk [] [] d [] (.mk 'u' ['u'] [] none none none)

/-- IPCVariant(int64_t): NUM_DATA(int64_t, Int64). -/
def ofInt64 (d : Int) : IPCVariant :=
  .mk [] [] (u64ofInt d) [] (.mk 'x' ['x'] [] none none none)

/-- IPCVariant(uint64_t): NUM_DATA(uint64_t, UInt64). -/
def ofUInt64 (d : Nat) : IPCVariant :=
  .mk [] [] d [] (.mk 't' ['t'] [] none none none)

/-- IPCVariant(double): NUM_DATA(double, Double).  The C++ initialization
`_num_data(data)` converts the double to uint64_t (truncating toward
zero); the double payload is modelled by that already-truncated Nat, so
float rounding itself is not modelled.  No theorem below compares two
distinct Double payloads. -/
def ofDouble (d : Nat) : IPCVariant :=
  .mk [] [] d [] (.mk 'd' ['d'] [] none none none)

/-- IPCVariant(uint8_t): NUM_DATA(uint8_t, Byte). -/
def ofByte (d : Nat) : IPCVariant :=
  .mk [] [] d [] (.mk 'y' ['y'] [] none none none)

/-- IPCVariant(bool): NUM_DATA(bool, Boolean); true stores 1. -/
def ofBool (d : Bool) : IPCVariant :=
  .mk [] [] (if d then 1 else 0) [] (.mk 'b' ['b'] [] none none none)

/-- IPCVariant(std::string data, TypeInfo::Type type): the member
initializer `_type(TypeInfo(type))` runs first (throwing for None, Array,
Struct, Dict), then the body throws unless the type is String, Signature
or ObjectPath. -/
def ofString (data : List Char) (t : Char) : Except IPCError IPCVariant :=
  match typeInfoOfType t with
  | .error e => .error e
  | .ok ti =>
    if t ≠ 's' ∧ t ≠ 'g' ∧ t ≠ 'o' then .error (.invalidType [])
    else .ok (.mk [] [] 0 data ti)

/-- IPCVariant(std::vector<IPCVariant> array, const TypeInfo& type): for
an Array type every element's type must equal the element type; for a
Struct type the arity must match and each element's type must equal the
corresponding slot type; any other primary type throws.  `_num_data` is
left uninitialized (modelled 0). -/
def mkVariantVector (array : List IPCVariant) (ty : TypeInfo) :
    Except IPCError IPCVariant :=
  if ty.primaryType = 'a' then
    match ty.arrayType with
    | .error e => .error e
    | .ok elemTy =>
      if array.all (fun i => tiEq i.type elemTy) then
        .ok (.mk array [] 0 [] ty)
      else .error (.invalidType [])
  else if ty.primaryType = '(' then
    match ty.structFormat with
    | .error e => .error e
    | .ok fmt =>
      if array.length ≠ fmt.length then .error (.invalidType [])
      else if (array.zip fmt).all (fun p => tiEq p.1.type p.2) then
        .ok (.mk array [] 0 [] ty)
      else .error (.invalidType [])
  else .error (.invalidType [])

/-- IPCVariant(IPCVariantDict dict, const TypeInfo& type): the type must
be a Dict and every entry's key and value types must equal the declared
key and value types. -/
def mkVariantDict (dict : List (IPCVariant × IPCVariant)) (ty : TypeInfo) :
    Except IPCError IPCVariant :=
  if ty.primaryType ≠ '{' then .error (.invalidType [])
  else
    match ty.dictType with
    | .error e => .error e
    | .ok kv =>
      if dict.all (fun it => tiEq it.1.type kv.1 && tiEq it.2.type kv.2) then
        .ok (.mk [] dict 0 [] ty)
      else .error (.invalidType [])

/-- Conversion operator int16_t: throws InvalidType unless the primary
type is Int16, else casts `_num_data`. -/
def opInt16 (v : IPCVariant) : Except IPCError Int :=
  if v.type.primaryType ≠ 'n' then .error (.invalidType [])
  else .ok (i16ofU64 v.numData)

/-- Conversion operator uint16_t. -/
def opUInt16 (v : IPCVariant) : Except IPCError Nat :=
  if v.type.primaryType ≠ 'q' then .error (.invalidType [])
  else .ok (u16ofU64 v.numData)

/-- Conversion operator int32_t. -/
def opInt32 (v : IPCVariant) : Except IPCError Int :=
  if v.type.primaryType ≠ 'i' then .error (.invalidType [])
  else .ok (i32ofU64 v.numData)

/-- Conversion operator uint32_t. -/
def opUInt32 (v : IPCVariant) : Except IPCError Nat :=
  if v.type.primaryType ≠ 'u' then .error (.invalidType [])
  else .ok (u32ofU64 v.numData)

/-- Conversion operator int64_t. -/
def opInt64 (v : IPCVariant) : Except IPCError Int :=
  if v.type.primaryType ≠ 'x' then .error (.invalidType [])
  else .ok (i64ofU64 v.numData)

/-- Conversion operator uint64_t. -/
def opUInt64 (v : IPCVariant) : Except IPCError Nat :=
  if v.type.primaryType ≠ 't' then .error (.invalidType [])
  else .ok (v.numData)

/-- Conversion operator double: throws unless Double, else casts the
uint64_t slot back to double (modelled as the stored Nat). -/
def opDouble (v : IPCVariant) : Except IPCError Nat :=
  if v.type.primaryType ≠ 'd' then .error (.invalidType [])
  else .ok (v.numData)

/-- Conversion operator uint8_t. -/
def opByte (v : IPCVariant) : Except IPCError Nat :=
  if v.type.primaryType ≠ 'y' then .error (.invalidType [])
  else .ok (u8ofU64 v.numData)

/-- Conversion operator bool (IPCVariant.h lines 220-225): unlike every
other conversion operator it does NOT throw on a kind mismatch; it
returns false unless the primary type is Boolean, else reads the slot. -/
def opBool (v : IPCVariant) : Bool :=
  if v.type.primaryType ≠ 'b' then false
  else decide (v.numData ≠ 0)

/-- Conversion operator std::string: throws unless the primary type is
String, Signature or ObjectPath. -/
def opString (v : IPCVariant) : Except IPCError (List Char) :=
  if v.type.primaryType ≠ 's' ∧ v.type.primaryType ≠ 'g' ∧
      v.type.primaryType ≠ 'o' then .error (.invalidType [])
  else .ok v.stringData

/-- Conversion operator const std::vector<IPCVariant>& (IPCVariant.h
lines 258-263): the source throws InvalidType unless the primary type is
Dict — not Array/Struct — and then returns `_array` (which is empty for a
dict, whose entries live in `_dict`). -/
def opVector (v : IPCVariant) : Except IPCError (List IPCVariant) :=
  if v.type.primaryType ≠ '{' then .error (.invalidType [])
  else .ok v.arrayData

/-- Conversion operator IPCVariantDict: throws unless the primary type is
Dict, else returns `_dict`. -/
def opDict (v : IPCVariant) :
    Except IPCError (List (IPCVariant × IPCVariant)) :=
  if v.type.primaryType ≠ '{' then .error (.invalidType [])
  else .ok v.dictData

/-- operator=(const std::vector<IPCVariant>&): validates the incoming
vector against the variant's own fixed type (Array element type, or
Struct arity and slot types), throws InvalidType otherwise, and replaces
`_array`. -/
def assignVector (v : IPCVariant) (other : List IPCVariant) :
    Except IPCError IPCVariant :=
  if v.type.primaryType = 'a' then
    match v.type.arrayType with
    | .error e => .error e
    | .ok elemTy =>
      if other.all (fun i => tiEq i.type elemTy) then
        .ok (.mk other v.dictData v.numData v.stringData v.type)
      else .error (.invalidType [])
  else if v.type.primaryType = '(' then
    match v.type.structFormat with
    | .error e => .error e
    | .ok fmt =>
      if other.length ≠ fmt.length then .error (.invalidType [])
      else if (other.zip fmt).all (fun p => tiEq p.1.type p.2) then
        .ok (.mk other v.dictData v.numData v.stringData v.type)
      else .error (.invalidType [])
  else .error (.invalidType [])

/-- operator=(const IPCVariantDict&): validates every entry against the
variant's own Dict key/value types, throws InvalidType otherwise, and
replaces `_dict`. -/
def assignDict (v : IPCVariant)
    (other : List (IPCVariant × IPCVariant)) : Except IPCError IPCVariant :=
  if v.type.primaryType ≠ '{' then .error (.invalidType [])
  else
    match v.type.dictType with
    | .error e => .error e
    | .ok kv =>
      if other.all (fun i => tiEq i.1.type kv.1 && tiEq i.2.type kv.2) then
        .ok (.mk v.arrayData other v.numData v.stringData v.type)
      else .error (.invalidType [])

/-- operator=(const IPCVariant&) (IPCVariant.cpp lines 231-240): copies
`_type`, `_num_data`, `_string_data`, `_array` and `_dict` from the
source, with no validation whatsoever; the target's former TypeSignature
is simply overwritten. -/
def variantAssign (_a b : IPCVariant) : IPCVariant :=
  .mk b.arrayData b.dictData b.numData b.stringData b.type

mutual

/-- IPCVariant::operator==(const IPCVariant&): false when the
TypeSignatures differ, else dispatch on the primary kind through the
conversion operators.  For Array and Struct the source casts both sides
to `const std::vector<IPCVariant>&`, and that conversion operator throws
unless the primary type is Dict (IPCVariant.h lines 258-263), so an
Array/Struct comparison always throws InvalidType.  The conversion on a
branch's own side otherwise matches by construction; the conversion on
`other` throws only if its TypeInfo has an equal signature text but a
different primary tag (impossible for parser-built TypeInfos). -/
def variantEq : IPCVariant → IPCVariant → Except IPCError Bool
  | .mk arr1 dct1 num1 _str1 ty1, .mk _arr2 dct2 num2 str2 ty2 =>
    if ¬ tiEq ty1 ty2 then .ok false
    else if ty1.primaryType = 'n' then
      if ty2.primaryType ≠ 'n' then .error (.invalidType [])
      else .ok (i16ofU64 num1 == i16ofU64 num2)
    else if ty1.primaryType = 'q' then
      if ty2.primaryType ≠ 'q' then .error (.invalidType [])
      else .ok (u16ofU64 num1 == u16ofU64 num2)
    else if ty1.primaryType = 'i' then
      if ty2.primaryType ≠ 'i' then .error (.invalidType [])
      else .ok (i32ofU64 num1 == i32ofU64 num2)
    else if ty1.primaryType = 'u' then
      if ty2.primaryType ≠ 'u' then .error (.invalidType [])
      else .ok (u32ofU64 num1 == u32ofU64 num2)
    else if ty1.primaryType = 'x' then
      if ty2.primaryType ≠ 'x' then .error (.invalidType [])
      else .ok (i64ofU64 num1 == i64ofU64 num2)
    else if ty1.primaryType = 't' then
      if ty2.primaryType ≠ 't' then .error (.invalidType [])
      else .ok (num1 == num2)
    else if ty1.primaryType = 'd' then
      if ty2.primaryType ≠ 'd' then .error (.invalidType [])
      else .ok (num1 == num2)
    else if ty1.primaryType = 'y' then
      if ty2.primaryType ≠ 'y' then .error (.invalidType [])
      else .ok (u8ofU64 num1 == u8ofU64 num2)
    else if ty1.primaryType = 's' ∨ ty1.primaryType = 'g' ∨
        ty1.primaryType = 'o' then
      if ty2.primaryType ≠ 's' ∧ ty2.primaryType ≠ 'g' ∧
          ty2.primaryType ≠ 'o' then .error (.invalidType [])
      else .ok (_str1 == str2)
    else if ty1.primaryType = 'b' then
      .ok ((decide (num1 ≠ 0)) ==
        (if ty2.primaryType = 'b' then decide (num2 ≠ 0) else false))
    else if ty1.primaryType = 'a' ∨ ty1.primaryType = '(' then
      if ty1.primaryType ≠ '{' then .error (.invalidType [])
      else if ty2.primaryType ≠ '{' then .error (.invalidType [])
      else if arr1.length ≠ _arr2.length then .ok false
      else vecEqElems arr1 _arr2
    else if ty1.primaryType = '{' then
      if ty2.primaryType ≠ '{' then .error (.invalidType [])
      else if dct1.length ≠ dct2.length then .ok false
      else dictEqElems dct1 dct2
    else if ty1.primaryType = '0' then .ok true
    else .ok (if ty1.primaryType = 'b' then decide (num1 ≠ 0) else false)

/-- Elementwise part of std::vector<IPCVariant>::operator== (sizes have
already been compared). -/
def vecEqElems : List IPCVariant → List IPCVariant →
    Except IPCError Bool
  | [], _ => .ok true
  | _, [] => .ok true
  | x :: xs, y :: ys =>
    match variantEq x y with
    | .error e => .error e
    | .ok b => if b then vecEqElems xs ys else .ok false

/-- Elementwise part of std::map operator== (sizes already compared):
std::pair::operator== compares keys first, then values, both through
IPCVariant::operator==. -/
def dictEqElems : List (IPCVariant × IPCVariant) →
    List (IPCVariant × IPCVariant) → Except IPCError Bool
  | [], _ => .ok true
  | _, [] => .ok true
  | (k1, v1) :: r1, (k2, v2) :: r2 =>
    match variantEq k1 k2 with
    | .error e => .error e
    | .ok bk =>
      if bk then
        match variantEq v1 v2 with
        | .error e => .error e
        | .ok bv => if bv then dictEqElems r1 r2 else .ok false
      else .ok false

end

/-- Lookup half of std::map::operator[] / find on an IPCVariantDict,
comparing keys with IPCVariant::operator== (which may throw).  The C++
map's comparator `std::equal_to<>` breaks the ordering contract std::map
requires, so library lookups on a non-empty map are undefined behaviour;
this model uses plain equality-based association lookup, and every
theorem below only exercises the comparator-free empty-map path. -/
def dictFind : List (IPCVariant × IPCVariant) → IPCVariant →
    Except IPCError (Option IPCVariant)
  | [], _ => .ok none
  | (k, v) :: rest, key =>
    match variantEq k key with
    | .error e => .error e
    | .ok b => if b then .ok (some v) else dictFind rest key

/-- operator[](ipc::IPCVariant& key) (non-const, IPCVariant.cpp lines
529-535): throws InvalidType unless the variant is a Dict, then
`return _dict[key]` — std::map::operator[] inserts a
default-constructed IPCVariant (type None) when the key is absent,
with no validation of the key or of the inserted value against the
Dict's declared types.  Returns the accessed value and the (possibly
extended) variant. -/
def opIndexDictMut (v : IPCVariant) (key : IPCVariant) :
    Except IPCError (IPCVariant × IPCVariant) :=
  if v.type.primaryType ≠ '{' then .error (.invalidType [])
  else
    match dictFind v.dictData key with
    | .error e => .error e
    | .ok (some val) => .ok (val, v)
    | .ok none =>
      .ok (IPCVariant.default0,
        .mk v.arrayData (v.dictData ++ [(key, IPCVariant.default0)])
          v.numData v.stringData v.type)

/-- operator[](std::size_t index): throws InvalidType unless the variant
is an Array or Struct; the C++ then asserts the index is in bounds and
returns `_array[index]` (out of bounds modelled by the default). -/
def opIndexNat (v : IPCVariant) (index : Nat) : Except IPCError IPCVariant :=
  if v.type.primaryType ≠ 'a' ∧ v.type.primaryType ≠ '(' then
    .error (.invalidType [])
  else .ok (v.arrayData.getD index IPCVariant.default0)

/-- The GDBus wire value (GVariant), as far as the translator uses it:
the constructors mirror the g_variant_new_* calls in toGVariant.  An
array carries its element type string (g_variant_new_array receives the
child type explicitly, so empty arrays stay typed). -/
inductive GVariant : Type where
  | gint16 (v : Int)
  | guint16 (v : Nat)
  | gint32 (v : Int)
  | guint32 (v : Nat)
  | gint64 (v : Int)
  | guint64 (v : Nat)
  | gdouble (v : Nat)
  | gbyte (v : Nat)
  | gbool (v : Bool)
  | gstring (s : List Char)
  | gsignature (s : List Char)
  | gobjpath (s : List Char)
  | garray (elemSig : List Char) (items : List GVariant)
  | gtuple (items : List GVariant)

/-- g_variant_get_type_string: the D-Bus type string of a wire value. -/
def gvarTypeString : GVariant → List Char
  | .gint16 _ => ['n']
  | .guint16 _ => ['q']
  | .gint32 _ => ['i']
  | .guint32 _ => ['u']
  | .gint64 _ => ['x']
  | .guint64 _ => ['t']
  | .gdouble _ => ['d']
  | .gbyte _ => ['y']
  | .gbool _ => ['b']
  | .gstring _ => ['s']
  | .gsignature _ => ['g']
  | .gobjpath _ => ['o']
  | .garray es _ => 'a' :: es
  | .gtuple items => '(' :: (items.attach.map
      (fun x => gvarTypeString x.1)).flatten ++ [')']
termination_by g => sizeOf g
decreasing_by
  have h1 := List.sizeOf_lt_of_mem x.2
  have h2 : sizeOf items < sizeOf (GVariant.gtuple items) := by
    simp [GVariant.gtuple.sizeOf_spec]
  omega

/-- g_variant_get_child_value over all indices: the children of a
container wire value (empty for non-containers). -/
def gchildren : GVariant → List GVariant
  | .garray _ items => items
  | .gtuple items => items
  | _ => []

theorem gchildren_sizeOf_le (g : GVariant) :
    sizeOf (gchildren g) ≤ sizeOf g := by
  cases g <;> simp [gchildren]

theorem getD_sizeOf_le (l : List GVariant) (i : Nat) (d : GVariant) :
    sizeOf (l.getD i d) ≤ max (sizeOf d) (sizeOf l) := by
  induction l generalizing i with
  | nil => simp
  | cons hd tl ih =>
    cases i with
    | zero => simp; omega
    | succ j =>
      have := ih j
      simp only [List.getD_cons_succ]
      simp at this ⊢
      omega

/-- The signature rewrite in translateGVariant when an array of
2-element structs is reinterpreted as a dict:
`ts.replace(ts.size()-1, 1, "}")` then `ts.replace(0, 2, "{")`. -/
def dictRewriteSig (ts : List Char) : List Char :=
  '{' :: ((ts.dropLast ++ ['}']).drop 2)

/-- `dict[key] = value` on an IPCVariantDict: std::map::operator[]
looks the key up (see dictFind for the comparator caveat), and either
the existing mapped value is overwritten through
IPCVariant::operator= or a new entry is inserted. -/
def dictPut : List (IPCVariant × IPCVariant) → IPCVariant → IPCVariant →
    Except IPCError (List (IPCVariant × IPCVariant))
  | [], k, v => .ok [(k, v)]
  | (k0, v0) :: rest, k, v =>
    match variantEq k0 k with
    | .error e => .error e
    | .ok b =>
      if b then .ok ((k0, variantAssign v0 v) :: rest)
      else
        match dictPut rest k v with
        | .error e => .error e
        | .ok rest2 => .ok ((k0, v0) :: rest2)

/-- Numeric payload readers g_variant_get_int16 etc.  The dispatch in
translateGVariant only reaches each reader when the parsed type string
matches, so for a well-typed wire value the constructor matches; other
constructors (a GLib precondition violation) read a zero/empty value. -/
def getGInt : GVariant → Int
  | .gint16 v => v
  | .gint32 v => v
  | .gint64 v => v
  | _ => 0

/-- Unsigned payload reader (g_variant_get_uint16/uint32/uint64/byte,
g_variant_get_boolean, g_variant_get_double). -/
def getGNat : GVariant → Nat
  | .guint16 v => v
  | .guint32 v => v
  | .guint64 v => v
  | .gbyte v => v
  | .gdouble v => v
  | .gbool v => if v then 1 else 0
  | _ => 0

/-- String payload reader (g_variant_get_string). -/
def getGString : GVariant → List Char
  | .gstring s => s
  | .gsignature s => s
  | .gobjpath s => s
  | _ => []

mutual

/-- translateGVariant (VariantTranslator.cpp lines 25-94): parse the wire
value's type string; if it is an array of 2-element structs, rewrite the
signature into a dict type and reparse; then dispatch on the primary
kind, building the IPCVariant through the scalar constructors (note
Int32 goes through the NUM_DATA(int32_t, Int16) constructor and so comes
back tagged Int16), the vector constructor for Array/Struct, or the dict
constructor after inserting every key/value pair. -/
def translateGVariant (g : GVariant) : Except IPCError IPCVariant :=
  match parseTypeInfo (gvarTypeString g) with
  | .error e => .error e
  | .ok ty0 =>
    match
      (if ty0.primaryType = 'a' then
        match ty0.arrayType with
        | .error e => .error e
        | .ok at0 =>
          if at0.primaryType = '(' then
            match at0.structFormat with
            | .error e => .error e
            | .ok fmt =>
              if fmt.length = 2 then
                parseTypeInfo (dictRewriteSig ty0.typeSignature)
              else .ok ty0
          else .ok ty0
      else .ok ty0 : Except IPCError TypeInfo) with
    | .error e => .error e
    | .ok ty =>
      if ty.primaryType = '0' then
        .error (.stdRuntime "invalid none typeinfo".data)
      else if ty.primaryType = 'n' then .ok (ofInt16 (getGInt g))
      else if ty.primaryType = 'q' then .ok (ofUInt16 (getGNat g))
      else if ty.primaryType = 'i' then .ok (ofInt32 (getGInt g))
      else if ty.primaryType = 'u' then .ok (ofUInt32 (getGNat g))
      else if ty.primaryType = 'x' then .ok (ofInt64 (getGInt g))
      else if ty.primaryType = 't' then .ok (ofUInt64 (getGNat g))
      else if ty.primaryType = 'd' then .ok (ofDouble (getGNat g))
      else if ty.primaryType = 'y' then .ok (ofByte (getGNat g))
      else if ty.primaryType = 's' ∨ ty.primaryType = 'g' ∨
          ty.primaryType = 'o' then
        ofString (getGString g) ty.primaryType
      else if ty.primaryType = 'b' then
        .ok (ofBool (getGNat g ≠ 0))
      else if ty.primaryType = 'a' ∨ ty.primaryType = '(' then
        match translateChildren (gchildren g) with
        | .error e => .error e
        | .ok arr => mkVariantVector arr ty
      else if ty.primaryType = '{' then
        match translateDictEntries (gchildren g) [] with
        | .error e => .error e
        | .ok d => mkVariantDict d ty
      else .error (.invalidType [])
termination_by 2 * sizeOf g + 1
decreasing_by
  · have := gchildren_sizeOf_le g
    omega
  · have := gchildren_sizeOf_le g
    omega

/-- The per-child loop of translateGVariant for Array/Struct wire
values. -/
def translateChildren : List GVariant → Except IPCError (List IPCVariant)
  | [] => .ok []
  | x :: xs =>
    match translateGVariant x with
    | .error e => .error e
    | .ok v =>
      match translateChildren xs with
      | .error e => .error e
      | .ok vs => .ok (v :: vs)
termination_by xs => 2 * sizeOf xs
decreasing_by
  all_goals
    first
    | (simp
       omega)
    | simp

/-- The dict loop of translateGVariant: each element is a 2-tuple whose
children 0 and 1 are the key and value; `dict[key] = value` inserts or
overwrites through the map. -/
def translateDictEntries : List GVariant →
    List (IPCVariant × IPCVariant) →
    Except IPCError (List (IPCVariant × IPCVariant))
  | [], acc => .ok acc
  | e :: rest, acc =>
    match translateGVariant ((gchildren e).getD 0 (GVariant.gbool false)) with
    | .error err => .error err
    | .ok k =>
      match translateGVariant
          ((gchildren e).getD 1 (GVariant.gbool false)) with
      | .error err => .error err
      | .ok v =>
        match dictPut acc k v with
        | .error err => .error err
        | .ok acc2 => translateDictEntries rest acc2
termination_by es _acc => 2 * sizeOf es
decreasing_by
  · have h1 := getD_sizeOf_le (gchildren e) 0 (GVariant.gbool false)
    have h3 := gchildren_sizeOf_le e
    have hd : sizeOf (GVariant.gbool false) = 2 := by simp
    have hb : 1 ≤ sizeOf e := by cases e <;> simp_arith
    have hc : sizeOf (e :: rest) = 1 + sizeOf e + sizeOf rest := by simp
    have hr : 1 ≤ sizeOf rest := by cases rest <;> simp_arith
    omega
  · have h2 := getD_sizeOf_le (gchildren e) 1 (GVariant.gbool false)
    have h3 := gchildren_sizeOf_le e
    have hd : sizeOf (GVariant.gbool false) = 2 := by simp
    have hb : 1 ≤ sizeOf e := by cases e <;> simp_arith
    have hc : sizeOf (e :: rest) = 1 + sizeOf e + sizeOf rest := by simp
    have hr : 1 ≤ sizeOf rest := by cases rest <;> simp_arith
    omega
  · first
    | omega
    | (simp
       try omega)

end

mutual

/-- toGVariant (VariantTranslator.cpp lines 96-172): dispatch on the
variant's primary type; scalars go out through the matching conversion
operator (which throws InvalidType on a tag/storage mismatch); Array and
Struct first cast the variant to const std::vector<IPCVariant>&, and that
conversion operator throws unless the primary type is Dict (IPCVariant.h
lines 258-263), so serializing an Array or Struct always throws.  The
Dict branch builds an array of 2-tuples, but its loop never increments
the output index `i`, so every tuple lands in slot 0 and, for two or
more entries, g_variant_new_array reads uninitialized memory — undefined
behaviour, modelled as a runtime error (the `if(!child_type)` re-derivation
inside that loop is dead code, as child_type was already set).  A None
type throws std::runtime_error, and the trailing assert(false) for an
out-of-enum tag is modelled as a runtime error as well. -/
def toGVariant (v : IPCVariant) : Except IPCError GVariant :=
  match v with
  | .mk arr dct num str ty =>
    if ty.primaryType = '0' then
      .error (.stdRuntime "invalid none typeinfo".data)
    else if ty.primaryType = 'n' then
      match opInt16 (.mk arr dct num str ty) with
      | .error e => .error e
      | .ok x => .ok (.gint16 x)
    else if ty.primaryType = 'q' then
      match opUInt16 (.mk arr dct num str ty) with
      | .error e => .error e
      | .ok x => .ok (.guint16 x)
    else if ty.primaryType = 'i' then
      match opInt32 (.mk arr dct num str ty) with
      | .error e => .error e
      | .ok x => .ok (.gint32 x)
    else if ty.primaryType = 'u' then
      match opUInt32 (.mk arr dct num str ty) with
      | .error e => .error e
      | .ok x => .ok (.guint32 x)
    else if ty.primaryType = 'x' then
      match opInt64 (.mk arr dct num str ty) with
      | .error e => .error e
      | .ok x => .ok (.gint64 x)
    else if ty.primaryType = 't' then
      match opUInt64 (.mk arr dct num str ty) with
      | .error e => .error e
      | .ok x => .ok (.guint64 x)
    else if ty.primaryType = 'd' then
      match opDouble (.mk arr dct num str ty) with
      | .error e => .error e
      | .ok x => .ok (.gdouble x)
    else if ty.primaryType = 'y' then
      match opByte (.mk arr dct num str ty) with
      | .error e => .error e
      | .ok x => .ok (.gbyte x)
    else if ty.primaryType = 's' then
      match opString (.mk arr dct num str ty) with
      | .error e => .error e
      | .ok x => .ok (.gstring x)
    else if ty.primaryType = 'g' then
      match opString (.mk arr dct num str ty) with
      | .error e => .error e
      | .ok x => .ok (.gsignature x)
    else if ty.primaryType = 'o' then
      match opString (.mk arr dct num str ty) with
      | .error e => .error e
      | .ok x => .ok (.gobjpath x)
    else if ty.primaryType = 'b' then
      .ok (.gbool (opBool (.mk arr dct num str ty)))
    else if ty.primaryType = 'a' then
      match opVector (.mk arr dct num str ty) with
      | .error e => .error e
      | .ok _ =>
        match ty.arrayType with
        | .error e => .error e
        | .ok elemTy =>
          match toGVariantList arr with
          | .error e => .error e
          | .ok items => .ok (.garray elemTy.typeSignature items)
    else if ty.primaryType = '(' then
      match opVector (.mk arr dct num str ty) with
      | .error e => .error e
      | .ok _ =>
        match toGVariantList arr with
        | .error e => .error e
        | .ok items => .ok (.gtuple items)
    else if ty.primaryType = '{' then
      match opDict (.mk arr dct num str ty) with
      | .error e => .error e
      | .ok _ =>
        match ty.dictType with
        | .error e => .error e
        | .ok kv =>
          match toGVariantPairs dct with
          | .error e => .error e
          | .ok tuples =>
            if dct.length ≤ 1 then
              .ok (.garray (kv.1.typeSignature ++ kv.2.typeSignature)
                tuples)
            else .error (.stdRuntime "uninitialized garray slot".data)
    else .error (.stdRuntime "assert false".data)
termination_by sizeOf v
decreasing_by
  all_goals
    first
    | omega
    | (simp
       try omega)

/-- The per-element serialization loop of toGVariant for Array and
Struct variants. -/
def toGVariantList : List IPCVariant → Except IPCError (List GVariant)
  | [] => .ok []
  | x :: xs =>
    match toGVariant x with
    | .error e => .error e
    | .ok g =>
      match toGVariantList xs with
      | .error e => .error e
      | .ok gs => .ok (g :: gs)
termination_by l => sizeOf l
decreasing_by
  all_goals
    first
    | omega
    | (simp
       try omega)

/-- The per-entry serialization loop of toGVariant's Dict branch: each
entry becomes a 2-tuple wire value. -/
def toGVariantPairs : List (IPCVariant × IPCVariant) →
    Except IPCError (List GVariant)
  | [] => .ok []
  | (k, v) :: rest =>
    match toGVariant k with
    | .error e => .error e
    | .ok gk =>
      match toGVariant v with
      | .error e => .error e
      | .ok gv2 =>
        match toGVariantPairs rest with
        | .error e => .error e
        | .ok gs => .ok (.gtuple [gk, gv2] :: gs)
termination_by ps => sizeOf ps
decreasing_by
  all_goals
    first
    | omega
    | (simp
       try omega)

end

/-- Insert-or-overwrite on an ordered-key mapping modelled as an
association list (std::map operator[] followed by assignment keeps the
existing key object and replaces its mapped value). -/
def assocUpsert {β : Type} : List (List Char × β) → List Char → β →
    List (List Char × β)
  | [], k, v => [(k, v)]
  | (k0, v0) :: rest, k, v =>
    if k0 == k then (k0, v) :: rest
    else (k0, v0) :: assocUpsert rest k v

theorem lookup_assocUpsert {β : Type} (l : List (List Char × β))
    (k : List Char) (v : β) : (assocUpsert l k v).lookup k = some v := by
  induction l with
  | nil => simp [assocUpsert, List.lookup]
  | cons hd tl ih =>
    by_cases h : hd.1 = k
    · simp [assocUpsert, h, List.lookup]
    · have hb : (hd.1 == k) = false := beq_false_of_ne h
      have hb2 : (k == hd.1) = false := beq_false_of_ne (Ne.symm h)
      cases hd with
      | mk k0 v0 =>
        simp only [assocUpsert]
        simp only at hb hb2
        rw [if_neg (by simpa using h)]
        simp [List.lookup, hb2, ih]

/-- IPCProperty (IPCInterface.h): the current value, its declared type,
and the readable/writable flags. -/
structure IPCProperty where
  property : IPCVariant
  type : TypeInfo
  readable : Bool
  writable : Bool

/-- IPCArgsInfo: ordered (name, TypeInfo) pairs for signal or function
arguments. -/
abbrev IPCArgsInfo := List (List Char × TypeInfo)

/-- The transport-facing state of the IPCServer that the modelled
operations consult: whether g_dbus_connection_emit_signal accepts a
broadcast.  The GDBus connection itself is the external boundary. -/
structure ServerModel where
  acceptBroadcast : Bool

/-- IPCInterface: its properties, signals, node and name, and the server
it is registered with (`_server`, null when unregistered).  Functions
are omitted: no claim below touches method dispatch. -/
structure IPCInterfaceM where
  properties : List (List Char × IPCProperty)
  signals : List (List Char × IPCArgsInfo)
  node : List Char
  name : List Char
  server : Option ServerModel

/-- IPCServer::emitSignal (VariantTranslator.cpp lines 302-318): build
the parameter tuple with toGVariant (exceptions propagate), then call
g_dbus_connection_emit_signal; if the transport rejects the broadcast,
`throw std::runtime_error("signal broadcast failed")`. -/
def serverEmitSignal (srv : ServerModel) (_node _name _signal : List Char)
    (params : List IPCVariant) : Except IPCError Unit :=
  if params.isEmpty then
    if srv.acceptBroadcast then .ok ()
    else .error (.stdRuntime "signal broadcast failed".data)
  else
    match toGVariantList params with
    | .error e => .error e
    | .ok _gparams =>
      if srv.acceptBroadcast then .ok ()
      else .error (.stdRuntime "signal broadcast failed".data)

/-- IPCInterface::emitSignal (IPCInterface.cpp lines 103-122): if
`_server` is null, return immediately (the ///TODO: Warn comment marks
this silent path) — before the signal name, the arity or the argument
types are ever examined; otherwise an undeclared name, an arity mismatch
or an argument type mismatch throws std::invalid_argument, and then
the Server broadcasts. -/
def ifaceEmitSignal (iface : IPCInterfaceM) (signal : List Char)
    (args : List IPCVariant) : Except IPCError Unit :=
  match iface.server with
  | none => .ok ()
  | some srv =>
    match iface.signals.lookup signal with
    | none => .error (.stdInvalidArg signal)
    | some siginfo =>
      if siginfo.length ≠ args.length then .error (.stdInvalidArg "args".data)
      else if (args.zip siginfo).all (fun p => tiEq p.1.type p.2.2) then
        serverEmitSignal srv iface.node iface.name signal args
      else .error (.stdInvalidArg "type".data)

/-- IPCInterface::setProperty (IPCInterface.cpp lines 66-76): throws
std::invalid_argument for an unknown property name; throws when the
value's type differs from the declared type (note: the C++ is
`throw std::invalid_argument(value)`, whose argument implicitly converts
the IPCVariant to std::string — a conversion that itself throws
InvalidType unless the value is string-like); otherwise replaces the
stored value. -/
def ifaceSetProperty (iface : IPCInterfaceM) (prop : List Char)
    (value : IPCVariant) : Except IPCError IPCInterfaceM :=
  match iface.properties.lookup prop with
  | none => .error (.stdInvalidArg prop)
  | some p =>
    if ¬ tiEq p.type value.type then
      if value.type.primaryType = 's' ∨ value.type.primaryType = 'g' ∨
          value.type.primaryType = 'o' then
        .error (.stdInvalidArg value.stringData)
      else .error (.invalidType [])
    else
      .ok { iface with
            properties := assocUpsert iface.properties prop
              { p with property := value } }

/-- A registration record in IPCServer::_nodes: the Interface pointer and
the registration id returned by g_dbus_connection_register_object (the
introspection info pointer is not modelled). -/
structure RegEntry where
  iface : IPCInterfaceM
  registrationId : Nat

/-- IPCServer::_nodes: node → interface name → registration record. -/
abbrev Registry := List (List Char × List (List Char × RegEntry))

/-- Two-level registry lookup. -/
def regLookup (nodes : Registry) (node name : List Char) :
    Option RegEntry :=
  match nodes.lookup node with
  | none => none
  | some m => m.lookup name

/-- IPCServer::registerInterface (VariantTranslator.cpp lines 259-279):
build the introspection info, call g_dbus_connection_register_object
(the external transport; its result is passed in here as
`registrationId` — GDBus returns 0 on failure), and then unconditionally
store `{interface, registration_id, info}` in `_nodes[node][name]`.
The registration result is never checked. -/
def serverRegisterInterface (nodes : Registry) (iface : IPCInterfaceM)
    (registrationId : Nat) : Registry :=
  assocUpsert nodes iface.node
    (assocUpsert ((nodes.lookup iface.node).getD []) iface.name
      { iface := iface, registrationId := registrationId })

/-- The GDBus error codes set through g_set_error in the dispatch
callbacks. -/
inductive GdbusErr where
  | unknownObject
  | unknownInterface
  | unknownMethod
  | unknownProperty
  | invalidArgs
  | accessDenied
  | failed
deriving DecidableEq, Repr

/-- Result of gdbus_set_property: the gboolean return value, the GError
slot (g_set_error), and the registry (with any property mutation). -/
structure SetPropResult where
  ret : Bool
  gerror : Option GdbusErr
  nodes : Registry

/-- IPCServer::gdbus_set_property (VariantTranslator.cpp lines 457-510):
the callback's initial null-IPCServer guard is not modelled (the
registry parameter presumes a live server); look up node, interface and
property (returning false with the matching GError when absent);
translate the inbound wire value (an InvalidType
from the translator propagates out of the callback — there is no
try/catch here); return false with InvalidArgs when the translated type
differs from the declared type.  When the property is not writable the
code calls g_set_error(AccessDenied) but does NOT return: it falls
through, calls the Interface's setProperty (which replaces the stored
value) and returns true. -/
def gdbusSetProperty (nodes : Registry)
    (objectPath ifaceName propName : List Char) (value : GVariant) :
    Except IPCError SetPropResult :=
  match nodes.lookup objectPath with
  | none => .ok ⟨false, some .unknownObject, nodes⟩
  | some interfaces =>
    match interfaces.lookup ifaceName with
    | none => .ok ⟨false, some .unknownInterface, nodes⟩
    | some entry =>
      match entry.iface.properties.lookup propName with
      | none => .ok ⟨false, some .unknownProperty, nodes⟩
      | some prop =>
        match translateGVariant value with
        | .error e => .error e
        | .ok ipcVariant =>
          if ¬ tiEq ipcVariant.type prop.type then
            .ok ⟨false, some .invalidArgs, nodes⟩
          else
            match ifaceSetProperty entry.iface propName ipcVariant with
            | .error e => .error e
            | .ok iface2 =>
              .ok ⟨true,
                if ¬ prop.writable then some .accessDenied else none,
                assocUpsert nodes objectPath
                  (assocUpsert interfaces ifaceName
                    { entry with iface := iface2 })⟩

/-- TypeInfo for "n" (Int16), as TypeInfo(std::string) builds it. -/
def tiN : TypeInfo := .mk 'n' ['n'] [] none none none

/-- TypeInfo for "q" (UInt16). -/
def tiQ : TypeInfo := .mk 'q' ['q'] [] none none none

/-- TypeInfo for "i" (Int32). -/
def tiI : TypeInfo := .mk 'i' ['i'] [] none none none

/-- TypeInfo for "s" (String). -/
def tiS : TypeInfo := .mk 's' ['s'] [] none none none

/-- TypeInfo for "an" (Array of Int16). -/
def tiAN : TypeInfo := .mk 'a' ['a', 'n'] [] (some tiN) none none

/-- TypeInfo for "{nq}" (Dict from Int16 to UInt16). -/
def tiDictNQ : TypeInfo := .mk '{' "{nq}".data [] none (some tiN) (some tiQ)

/-- An Array-of-Int16 variant holding one element, exactly what
IPCVariant(std::vector{IPCVariant(int16_t(3))}, TypeInfo("an"))
constructs. -/
def arrVar : IPCVariant := .mk [ofInt16 3] [] 0 [] tiAN

/-- An empty Dict variant of type "{nq}". -/
def dictVarNQ : IPCVariant := .mk [] [] 0 [] tiDictNQ

/-- The dict variant after `dictVarNQ[ofInt16 3]` (operator[]) inserted a
default (None-typed) value for the absent key. -/
def dictVarNQafter : IPCVariant :=
  .mk [] [(ofInt16 3, IPCVariant.default0)] 0 [] tiDictNQ

/-- A String variant holding "hi". -/
def strVar : IPCVariant := .mk [] [] 0 "hi".data tiS

/-- A hypothetical Int32-tagged variant holding 7 (note that no scalar
constructor in the source can actually produce the Int32 tag, because
NUM_DATA(int32_t, Int16) mis-tags it). -/
def v32 : IPCVariant := .mk [] [] 7 [] tiI

/-- An unregistered interface declaring no signals. -/
def ifaceUnreg : IPCInterfaceM :=
  { properties := [], signals := [], node := "/pizza/pixl/logiops/d".data,
    name := "pizza.pixl.logiops.D".data, server := none }

/-- C9: whole-object assignment (operator=(const IPCVariant&)) is total —
it never throws and performs no type validation — and afterwards the
target is field-for-field the source; in particular the target's
TypeSignature equals the source's, so whole-object assignment can change
a Variant's TypeSignature after construction, unlike the typed
assignment operators which re-validate against the fixed type. -/
theorem c9_whole_object_assign_total (a b : IPCVariant) :
    variantAssign a b = b ∧ (variantAssign a b).type = b.type := by
  cases b with
  | mk arr dct num str ty => exact ⟨rfl, rfl⟩

/-- C10: for an Interface with no bound Server (`_server == nullptr`),
emitSignal returns normally for every signal name and every argument
list — undeclared names and arity/type mismatches included — because the
null-server check precedes all validation. -/
theorem c10_unregistered_emit_returns_ok (iface : IPCInterfaceM)
    (signal : List Char) (args : List IPCVariant)
    (h : iface.server = none) :
    ifaceEmitSignal iface signal args = .ok () := by
  unfold ifaceEmitSignal
  rw [h]

/-- Witness for C10: an unregistered interface emitting an undeclared
signal with a nonempty argument list still returns normally. -/
theorem c10_unregistered_emit_returns_ok_witness :
    ifaceEmitSignal ifaceUnreg "nosuch".data [ofUInt16 5] = .ok () :=
  c10_unregistered_emit_returns_ok ifaceUnreg "nosuch".data [ofUInt16 5] rfl

/-- C7 counterexample: with the transport-level registration failing
(g_dbus_connection_register_object returns 0), registerInterface still
keeps the registry entry for (node, name) — the claim that no entry is
kept on transport failure is false. -/
theorem c7_failed_transport_entry_kept :
    regLookup (serverRegisterInterface [] ifaceUnreg 0)
      ifaceUnreg.node ifaceUnreg.name =
      some { iface := ifaceUnreg, registrationId := 0 } := by
  simp [serverRegisterInterface, regLookup, assocUpsert, List.lookup,
    ifaceUnreg]

/-- C7 amended: registerInterface stores the registration record
unconditionally — after the call the registry maps the interface's
(node, name) to {interface, registration id} whatever the transport
returned, including a failed registration (id 0), so registry state and
transport state can diverge. -/
theorem c7_register_always_inserts (nodes : Registry)
    (iface : IPCInterfaceM) (registrationId : Nat) :
    regLookup (serverRegisterInterface nodes iface registrationId)
      iface.node iface.name =
      some { iface := iface, registrationId := registrationId } := by
  unfold serverRegisterInterface regLookup
  simp [lookup_assocUpsert]

/-- C8 counterexample: when the transport rejects the broadcast,
IPCServer::emitSignal throws std::runtime_error("signal broadcast
failed") instead of returning normally — the claim that the failure is
logged and not surfaced to the caller is false. -/
theorem c8_broadcast_reject_throws_concrete :
    serverEmitSignal { acceptBroadcast := false } "/n".data "I".data
      "sig".data [] =
      .error (.stdRuntime "signal broadcast failed".data) := by
  simp [serverEmitSignal]

/-- C8 amended: when the transport rejects a broadcast whose arguments
translate to wire format, the Server's emitSignal raises
std::runtime_error("signal broadcast failed"), surfacing the failure to
the emitting caller; nothing catches, logs-and-swallows, or retries
it. -/
theorem c8_broadcast_reject_raises (node name signal : List Char)
    (params : List IPCVariant) (gs : List GVariant)
    (h : toGVariantList params = .ok gs) :
    serverEmitSignal { acceptBroadcast := false } node name signal params =
      .error (.stdRuntime "signal broadcast failed".data) := by
  unfold serverEmitSignal
  by_cases he : params.isEmpty
  · rw [if_pos he]
    rfl
  · rw [if_neg he, h]
    rfl

/-- Witness for C8 amended: a one-argument broadcast rejected by the
transport raises the runtime error. -/
theorem c8_broadcast_reject_raises_witness :
    serverEmitSignal { acceptBroadcast := false } "/n".data "I".data
      "sig".data [ofUInt16 5] =
      .error (.stdRuntime "signal broadcast failed".data) :=
  c8_broadcast_reject_raises "/n".data "I".data "sig".data [ofUInt16 5]
    [.guint16 5] (by simp [toGVariantList, toGVariant, opUInt16, ofUInt16,
      IPCVariant.type, IPCVariant.numData, TypeInfo.primaryType, u16ofU64])

/-- C1: the claim says `v == v` is true for every Variant and that
equality never raises; but for a validly constructed Array variant the
comparison raises InvalidType, because operator== casts both sides to
`const std::vector<IPCVariant>&` and that conversion operator throws
unless the primary type is Dict (IPCVariant.h lines 258-263).  The same
happens for Struct variants.  For Variants of differing TypeSignatures
the comparison does return false before any cast, as the claim says. -/
theorem c1_array_self_equality_raises :
    mkVariantVector [ofInt16 3] tiAN = .ok arrVar ∧
    variantEq arrVar arrVar = .error (.invalidType []) ∧
    variantEq (ofUInt16 5) (ofInt16 3) = .ok false := by
  refine ⟨?_, ?_, ?_⟩
  · simp [mkVariantVector, tiAN, tiN, arrVar, ofInt16, tiEq,
      TypeInfo.arrayType, TypeInfo.primaryType, TypeInfo.typeSignature,
      TypeInfo.arrayTy, IPCVariant.type, u64ofInt]
  · simp [variantEq, arrVar, tiAN, tiN, tiEq, ofInt16, TypeInfo.primaryType,
      TypeInfo.typeSignature, opVector, IPCVariant.type, u64ofInt]
  · simp [variantEq, ofUInt16, ofInt16, tiEq, TypeInfo.typeSignature,
      TypeInfo.primaryType, u64ofInt]

/-- C4: the claim says every typed accessor fails with InvalidType
exactly when the Variant's primary kind does not match the requested
representation.  Two accessors diverge: the bool conversion returns
false (no error) on a String variant whose kind does not match
(IPCVariant.h lines 220-225), and the vector conversion raises
InvalidType on a genuine Array variant (kind matches the request) while
succeeding on a Dict variant (kind does not match), because its check
reads `!= Dict` instead of `!= Array && != Struct` (lines 258-263). -/
theorem c4_accessor_kind_divergence :
    opBool strVar = false ∧
    opString strVar = .ok "hi".data ∧
    opVector arrVar = .error (.invalidType []) ∧
    opVector dictVarNQ = .ok [] := by
  exact ⟨rfl, rfl, rfl, rfl⟩

/-- C5: the round trip `fromWire(toWire(v)) == v` fails for an Int32
Variant: translateGVariant builds the result through the
NUM_DATA(int32_t, Int16) constructor (IPCVariant.h line 120), so the
variant coming back from an int32 wire value carries TypeSignature "n"
(Int16) instead of "i"; serializing the Int32-typed v itself produces
the right wire value, but the re-translated variant compares unequal to
v because the TypeSignatures differ. -/
theorem c5_int32_roundtrip_type_change :
    toGVariant v32 = .ok (.gint32 7) ∧
    translateGVariant (GVariant.gint32 7) = .ok (ofInt32 7) ∧
    (ofInt32 7).type.typeSignature = ['n'] ∧
    variantEq (ofInt32 7) v32 = .ok false := by
  refine ⟨?_, ?_, rfl, ?_⟩
  · simp [toGVariant, v32, tiI, opInt32, IPCVariant.type,
      TypeInfo.primaryType, IPCVariant.numData, i32ofU64]
  · simp [translateGVariant, gvarTypeString, parseTypeInfo, getGInt,
      ofInt32, SINGLE_TYPES, SPECIAL_TYPES, VALID_CHARS, ALL_TYPES,
      TypeInfo.primaryType, TypeInfo.arrayType]
  · simp [variantEq, ofInt32, v32, tiI, tiEq, TypeInfo.typeSignature,
      TypeInfo.primaryType, u64ofInt]

/-- A UInt16 property holding 1, readable but not writable. -/
def propQ : IPCProperty :=
  { property := ofUInt16 1, type := tiQ, readable := true, writable := false }

/-- An interface exposing the non-writable property "p". -/
def ifaceC2 : IPCInterfaceM :=
  { properties := [("p".data, propQ)], signals := [], node := "/d".data,
    name := "D".data, server := some { acceptBroadcast := true } }

/-- The registry holding ifaceC2. -/
def regC2 : Registry :=
  [("/d".data, [("D".data, { iface := ifaceC2, registrationId := 1 })])]

/-- ifaceC2 after the property write stored 2. -/
def ifaceC2after : IPCInterfaceM :=
  { ifaceC2 with properties :=
      [("p".data, { propQ with property := ofUInt16 2 })] }

/-- The registry after the dispatch wrote through. -/
def regC2after : Registry :=
  [("/d".data, [("D".data, { iface := ifaceC2after, registrationId := 1 })])]

/-- C2: dispatching a property write against a registered (node,
interface) whose property is declared writable=false does set the
AccessDenied GError, but gdbus_set_property then falls through (there is
no `return false` in that branch, VariantTranslator.cpp lines 503-506):
it still calls the Interface's setProperty — so the stored value changes
from 1 to 2 — and returns true.  The claim that the dispatch fails and
the stored value is unchanged does not hold. -/
theorem c2_nonwritable_write_access_denied_but_stored :
    gdbusSetProperty regC2 "/d".data "D".data "p".data
      (GVariant.guint16 2) =
      .ok { ret := true, gerror := some .accessDenied,
            nodes := regC2after } ∧
    (regLookup regC2 "/d".data "D".data).map
      (fun e => (e.iface.properties.lookup "p".data).map
        (fun q => q.property)) = some (some (ofUInt16 1)) ∧
    (regLookup regC2after "/d".data "D".data).map
      (fun e => (e.iface.properties.lookup "p".data).map
        (fun q => q.property)) = some (some (ofUInt16 2)) := by
  refine ⟨?_, rfl, rfl⟩
  simp [gdbusSetProperty, regC2, ifaceC2, propQ, tiQ, List.lookup,
    translateGVariant, gvarTypeString, parseTypeInfo, getGNat, ofUInt16,
    SINGLE_TYPES, SPECIAL_TYPES, VALID_CHARS, ALL_TYPES,
    TypeInfo.primaryType, TypeInfo.arrayType, TypeInfo.typeSignature, tiEq,
    IPCVariant.type, ifaceSetProperty, assocUpsert, regC2after, ifaceC2after]

/-- C6 counterexample: on a validly constructed (empty) Dict variant of
type "{nq}", the mutable index operator with an absent Int16 key
succeeds and inserts a default-constructed, None-typed value — the
resulting entry violates the declared value type 'q' with no InvalidType
raised, refuting the claim that every indexed access preserves the
child-typing invariant or fails. -/
theorem c6_dict_index_inserts_none :
    mkVariantDict [] tiDictNQ = .ok dictVarNQ ∧
    opIndexDictMut dictVarNQ (ofInt16 3) =
      .ok (IPCVariant.default0, dictVarNQafter) ∧
    dictVarNQafter.dictData = [(ofInt16 3, IPCVariant.default0)] ∧
    tiEq IPCVariant.default0.type tiQ = false := by
  exact ⟨rfl, rfl, rfl, rfl⟩

/-- TypeInfo for "(n)" (Struct with one Int16 slot). -/
def tiStructN : TypeInfo := .mk '(' "(n)".data [tiN] none none none

/-- C6 amended: construction and typed assignment do enforce the
invariant on every child/key/value type mismatch — the vector
constructor rejects an Array child whose type differs from the element
type and a Struct child whose type differs from its positional slot
type, and the dict constructor and the dict assignment operator reject
an entry whose key type or whose value type differs from the declared
key/value types, all with InvalidType and no coercion — but the mutable
dict index operator does not: on an absent key it inserts a default
None-typed value with no validation, so indexed access does not
preserve the invariant. -/
theorem c6_composite_validation_amended :
    (∀ (array : List IPCVariant) (ty elemTy : TypeInfo) (c : IPCVariant),
       ty.arrayType = .ok elemTy → c ∈ array →
       tiEq c.type elemTy = false →
       mkVariantVector array ty = .error (.invalidType [])) ∧
    (∀ (array : List IPCVariant) (ty : TypeInfo) (fmt : List TypeInfo)
       (c : IPCVariant) (f : TypeInfo),
       ty.structFormat = .ok fmt → array.length = fmt.length →
       (c, f) ∈ array.zip fmt → tiEq c.type f = false →
       mkVariantVector array ty = .error (.invalidType [])) ∧
    (∀ (d : List (IPCVariant × IPCVariant)) (ty : TypeInfo)
       (kv : TypeInfo × TypeInfo) (k v : IPCVariant),
       ty.dictType = .ok kv → (k, v) ∈ d → tiEq k.type kv.1 = false →
       mkVariantDict d ty = .error (.invalidType [])) ∧
    (∀ (d : List (IPCVariant × IPCVariant)) (ty : TypeInfo)
       (kv : TypeInfo × TypeInfo) (k v : IPCVariant),
       ty.dictType = .ok kv → (k, v) ∈ d → tiEq v.type kv.2 = false →
       mkVariantDict d ty = .error (.invalidType [])) ∧
    (∀ (v0 : IPCVariant) (d : List (IPCVariant × IPCVariant))
       (kv : TypeInfo × TypeInfo) (k w : IPCVariant),
       v0.type.dictType = .ok kv → (k, w) ∈ d → tiEq k.type kv.1 = false →
       assignDict v0 d = .error (.invalidType [])) ∧
    (∀ (v0 : IPCVariant) (d : List (IPCVariant × IPCVariant))
       (kv : TypeInfo × TypeInfo) (k w : IPCVariant),
       v0.type.dictType = .ok kv → (k, w) ∈ d → tiEq w.type kv.2 = false →
       assignDict v0 d = .error (.invalidType [])) ∧
    opIndexDictMut dictVarNQ (ofInt16 3) =
      .ok (IPCVariant.default0, dictVarNQafter) ∧
    tiEq IPCVariant.default0.type tiQ = false := by
  refine ⟨?_, ?_, ?_, ?_, ?_, ?_, rfl, rfl⟩
  · intro array ty elemTy c hat hmem htk
    have hp : ty.primaryType = 'a' := by
      by_contra hne
      simp [TypeInfo.arrayType, hne] at hat
    have hall : (array.all fun i => tiEq i.type elemTy) = false :=
      List.all_eq_false.mpr ⟨c, hmem, by simp [htk]⟩
    simp [mkVariantVector, hp, hat, hall]
  · intro array ty fmt c f hsf hlen hmem hcf
    have hp : ty.primaryType = '(' := by
      by_contra hne
      simp [TypeInfo.structFormat, hne] at hsf
    have hall : ((array.zip fmt).all fun p => tiEq p.1.type p.2) = false :=
      List.all_eq_false.mpr ⟨(c, f), hmem, by simp [hcf]⟩
    simp [mkVariantVector, hp, hsf, hlen, hall]
  · intro d ty kv k v hdt hmem htk
    have hp : ty.primaryType = '{' := by
      by_contra hne
      simp [TypeInfo.dictType, hne] at hdt
    have hall :
        (d.all fun it => tiEq it.1.type kv.1 && tiEq it.2.type kv.2) =
          false :=
      List.all_eq_false.mpr ⟨(k, v), hmem, by simp [htk]⟩
    simp [mkVariantDict, hp, hdt, hall]
  · intro d ty kv k v hdt hmem htv
    have hp : ty.primaryType = '{' := by
      by_contra hne
      simp [TypeInfo.dictType, hne] at hdt
    have hall :
        (d.all fun it => tiEq it.1.type kv.1 && tiEq it.2.type kv.2) =
          false :=
      List.all_eq_false.mpr ⟨(k, v), hmem, by simp [htv]⟩
    simp [mkVariantDict, hp, hdt, hall]
  · intro v0 d kv k w hdt hmem htk
    have hp : v0.type.primaryType = '{' := by
      by_contra hne
      simp [TypeInfo.dictType, hne] at hdt
    have hall :
        (d.all fun it => tiEq it.1.type kv.1 && tiEq it.2.type kv.2) =
          false :=
      List.all_eq_false.mpr ⟨(k, w), hmem, by simp [htk]⟩
    simp [assignDict, hp, hdt, hall]
  · intro v0 d kv k w hdt hmem htv
    have hp : v0.type.primaryType = '{' := by
      by_contra hne
      simp [TypeInfo.dictType, hne] at hdt
    have hall :
        (d.all fun it => tiEq it.1.type kv.1 && tiEq it.2.type kv.2) =
          false :=
      List.all_eq_false.mpr ⟨(k, w), hmem, by simp [htv]⟩
    simp [assignDict, hp, hdt, hall]

/-- Witness for C6 amended: a UInt16 child in an Int16-array, a UInt16
child in the Int16 slot of a one-slot struct, a UInt16 key and an
Int16-valued entry in an "{nq}" dict constructor, and the same key and
value mismatches through the dict assignment operator are all rejected
with InvalidType. -/
theorem c6_composite_validation_amended_witness :
    mkVariantVector [ofUInt16 5] tiAN = .error (.invalidType []) ∧
    mkVariantVector [ofUInt16 5] tiStructN = .error (.invalidType []) ∧
    mkVariantDict [(ofUInt16 5, ofUInt16 6)] tiDictNQ =
      .error (.invalidType []) ∧
    mkVariantDict [(ofInt16 3, ofInt16 4)] tiDictNQ =
      .error (.invalidType []) ∧
    assignDict dictVarNQ [(ofUInt16 5, ofUInt16 6)] =
      .error (.invalidType []) ∧
    assignDict dictVarNQ [(ofInt16 3, ofInt16 4)] =
      .error (.invalidType []) :=
  ⟨c6_composite_validation_amended.1 [ofUInt16 5] tiAN tiN (ofUInt16 5)
      rfl (by simp) rfl,
   c6_composite_validation_amended.2.1 [ofUInt16 5] tiStructN [tiN]
      (ofUInt16 5) tiN rfl rfl (by simp) rfl,
   c6_composite_validation_amended.2.2.1 [(ofUInt16 5, ofUInt16 6)]
      tiDictNQ (tiN, tiQ) (ofUInt16 5) (ofUInt16 6) rfl (by simp) rfl,
   c6_composite_validation_amended.2.2.2.1 [(ofInt16 3, ofInt16 4)]
      tiDictNQ (tiN, tiQ) (ofInt16 3) (ofInt16 4) rfl (by simp) rfl,
   c6_composite_validation_amended.2.2.2.2.1 dictVarNQ
      [(ofUInt16 5, ofUInt16 6)] (tiN, tiQ) (ofUInt16 5) (ofUInt16 6)
      rfl (by simp) rfl,
   c6_composite_validation_amended.2.2.2.2.2.1 dictVarNQ
      [(ofInt16 3, ofInt16 4)] (tiN, tiQ) (ofInt16 3) (ofInt16 4)
      rfl (by simp) rfl⟩

/-- C3 counterexample: the empty struct "()" is accepted by
TypeInfo::TypeInfo(std::string) — the member loop from 1 to size-2 simply
runs zero times, so no InvalidType is thrown and a Struct TypeInfo with
an empty member list is produced, refuting the claim that "()" fails to
parse. -/
theorem c3_empty_struct_parses :
    parseTypeInfo "()".data = .ok (.mk '(' "()".data [] none none none) := by
  simp [parseTypeInfo, parseStructFields, SINGLE_TYPES, SPECIAL_TYPES,
    VALID_CHARS, ALL_TYPES]

theorem parse_gse_dictkey_aux :
    getSpecialEnd ['{', '(', 'n', ')', 'i', '}'] 1 = .ok 3 := by
  simp [getSpecialEnd, scanClose, bracketStep, SINGLE_TYPES, SPECIAL_TYPES]

theorem parse_structkey_aux : parseTypeInfo ['(', 'n', ')'] =
    .ok (.mk '(' ['(', 'n', ')'] [tiN] none none none) := by
  simp [parseTypeInfo, parseStructFields, typeInfoOfChar, tiN,
    SINGLE_TYPES, SPECIAL_TYPES, VALID_CHARS, ALL_TYPES]

theorem parse_dictvalue_aux (h : 0 < 4) :
    parseDictValue ['{', '(', 'n', ')', 'i', '}'] 4 h = .ok tiI := by
  simp [parseDictValue, parseTypeInfo, sub, tiI, SINGLE_TYPES,
    SPECIAL_TYPES, VALID_CHARS, ALL_TYPES]

/-- C3 amended: of the malformed-signature categories the claim lists,
two are uniformly rejected — a character outside VALID_CHARS, and a
primitive code followed by anything (multi-character primitive) — both
with InvalidType; the remaining categories are not: the empty struct
"()" parses successfully, a dict whose key sub-signature is composite
(here the struct "(n)") parses successfully, and "{ni(i}" — a string
with an unbalanced parenthesis hidden in the characters the dict parser
never examines after a one-character value — parses successfully as
well. -/
theorem c3_malformed_amended :
    (∀ ts : List Char, (ts.all fun c => VALID_CHARS.contains c) = false →
       ∃ sig, parseTypeInfo ts = .error (.invalidType sig)) ∧
    (∀ (c : Char) (rest : List Char), SINGLE_TYPES.contains c = true →
       rest ≠ [] →
       ∃ sig, parseTypeInfo (c :: rest) = .error (.invalidType sig)) ∧
    parseTypeInfo "()".data = .ok (.mk '(' "()".data [] none none none) ∧
    parseTypeInfo "{(n)i}".data =
      .ok (.mk '{' "{(n)i}".data [] none
        (some (.mk '(' "(n)".data [tiN] none none none)) (some tiI)) ∧
    parseTypeInfo "{ni(i}".data =
      .ok (.mk '{' "{ni(i}".data [] none (some tiN) (some tiI)) := by
  refine ⟨?_, ?_, ?_, ?_, ?_⟩
  · intro ts hall
    have hne : ts.length ≠ 0 := by
      intro h0
      have hnil : ts = [] := List.length_eq_zero.mp h0
      subst hnil
      simp at hall
    refine ⟨ts, ?_⟩
    unfold parseTypeInfo
    rw [dif_neg hne, dif_pos hall]
  · intro c rest hc hrest
    refine ⟨c :: rest, ?_⟩
    unfold parseTypeInfo
    have hne : (c :: rest).length ≠ 0 := by simp
    rw [dif_neg hne]
    by_cases hall :
        ((c :: rest).all fun ch => VALID_CHARS.contains ch) = false
    · rw [dif_pos hall]
    · rw [dif_neg hall]
      have hget : (c :: rest).getD 0 'Z' = c := rfl
      rw [hget, if_pos hc]
      have hlen : (c :: rest).length ≠ 1 := by
        simp only [List.length_cons, ne_eq, Nat.add_left_eq_self]
        intro h0
        exact hrest (List.length_eq_zero.mp h0)
      rw [if_pos hlen]
  · simp [parseTypeInfo, parseStructFields, SINGLE_TYPES, SPECIAL_TYPES,
      VALID_CHARS, ALL_TYPES]
  · rw [parseTypeInfo]
    simp [parse_gse_dictkey_aux, parse_structkey_aux, parse_dictvalue_aux,
      sub, SINGLE_TYPES, SPECIAL_TYPES, VALID_CHARS, ALL_TYPES]
  · set_option maxRecDepth 4000 in
    simp [parseTypeInfo, parseDictValue, sub, tiN, tiI, SINGLE_TYPES,
      SPECIAL_TYPES, VALID_CHARS, ALL_TYPES]

/-- Witness for C3 amended: the out-of-alphabet string "z" and the
multi-character primitive "nn" are both rejected. -/
theorem c3_malformed_amended_witness :
    (∃ sig, parseTypeInfo ['z'] = .error (.invalidType sig)) ∧
    (∃ sig, parseTypeInfo ['n', 'n'] = .error (.invalidType sig)) :=
  ⟨c3_malformed_amended.1 ['z'] (by decide),
   c3_malformed_amended.2.1 'n' ['n'] (by decide) (by decide)⟩

end LogiopsIPC
